import Mathlib

/-!
# Verification of the step-up MFA assurance engine

This development gives a shallow embedding of the security-relevant logic of
the finance-app repository and proves properties of it:

* the `disable-mfa-secure` edge function (factor-strength hierarchy check,
  24-hour cooling period, AAL2 enforcement, session revocation, audit log);
* the `change-password-secure` edge function (AAL2 step-up requirement);
* the client-side route guard (`guard.js`) and `requireAuth` (`auth.js`)
  (recovery-session detection, AAL2 enforcement on page load).

External calls (identity provider, datastore) are modelled by an environment
record that fixes the outcome of each call; each handler is a pure function
from that environment to the response it produces together with the ordered
trace of external calls it issued.  Timestamps are rationals (milliseconds),
mirroring the JavaScript arithmetic on `Date.now()` values at the exactness
level the claims exercise.
-/

namespace FinanceApp

/-- A second-factor record as the identity provider returns it from
`listFactors` (the fields the code reads: `id`, `factor_type`, `status`). -/
structure Factor where
  id : String
  factor_type : String
  status : String
deriving DecidableEq, Repr

/-- The `FACTOR_STRENGTH` table of `disable-mfa-secure` (STEP 5), with the
JavaScript `FACTOR_STRENGTH[t] || 0` default for unknown types. -/
def FACTOR_STRENGTH (t : String) : Nat :=
  if t = "webauthn" then 4
  else if t = "totp" then 3
  else if t = "phone" then 2
  else if t = "email" then 1
  else 0

/-- The status test `f.status === 'verified'` used throughout the sources. -/
def isVerified (f : Factor) : Bool :=
  f.status == "verified"

/-- `hasStrongerFactors` from `disable-mfa-secure` STEP 5: some factor in the
active (verified) list has a different id and strictly greater strength than
the factor being disabled. -/
def hasStrongerFactors (activeMfaFactors : List Factor) (factorToDisable : Factor) : Bool :=
  activeMfaFactors.any (fun f =>
    f.id != factorToDisable.id &&
    decide (FACTOR_STRENGTH f.factor_type > FACTOR_STRENGTH factorToDisable.factor_type))

/-- The columns of the `profiles` row that `disable-mfa-secure` STEP 5.5
selects: `last_mfa_change` (nullable timestamp, held here in epoch
milliseconds) and `mfa_factors_count`. -/
structure ProfileRow where
  last_mfa_change : Option ℚ
  mfa_factors_count : Int
deriving DecidableEq, Repr

/-- STEP 5.5 of `disable-mfa-secure`, the cooling-period decision: `none`
means the disable proceeds, `some hrs` means it is rejected with
`hoursRemaining = hrs`.  Mirrors the source guards: a failed profile lookup
(`profileRow = none`), a null `last_mfa_change`, or a non-positive
`mfa_factors_count` all fall through to `none` (the code comments say
"Continue anyway - don't block on profile lookup"). -/
def coolingRejection (profileRow : Option ProfileRow) (nowMs : ℚ) : Option Int :=
  match profileRow with
  | none => none
  | some profile =>
    match profile.last_mfa_change with
    | none => none
    | some lastChange =>
      if profile.mfa_factors_count > 0 then
        let hoursSinceChange := (nowMs - lastChange) / (1000 * 60 * 60)
        if hoursSinceChange < 24 then some (Int.ceil (24 - hoursSinceChange))
        else none
      else none

/-- The external calls the `disable-mfa-secure` handler can issue, in the
order the source issues them. -/
inductive DMCall where
  | signInPassword
  | listFactors
  | challengeFactor
  | verifyCode
  | profileSelect
  | profileUpdate (newCount : Int)
  | unenroll (factorId : String)
  | signOutAll
  | auditInsert (eventType : String)
deriving DecidableEq, Repr

/-- Which external calls mutate server-held state (the profile row, the
factor set, the session set, the audit log); the others are reads or
verifications. -/
def DMCall.isMutation : DMCall → Bool
  | DMCall.profileUpdate _ => true
  | DMCall.unenroll _ => true
  | DMCall.signOutAll => true
  | DMCall.auditInsert _ => true
  | _ => false

/-- The distinct responses of `disable-mfa-secure`.  Thrown errors caught by
the outer `try/catch` become `serverError` (HTTP 500); the boolean on
`aal2Required` is the `requiresAAL2` field of the JSON body, the boolean on
`success` is its `requiresReauth` field. -/
inductive DMResp where
  | serverError (msg : String)
  | invalidTokenFormat
  | missingIdentity
  | aal2Required (requiresAAL2 : Bool) (currentAAL : Option String)
  | missingFields
  | invalidPassword
  | noFactor
  | invalidMfaCode
  | hierarchyViolation
  | coolingPeriod (hoursRemaining : Int)
  | success (requiresReauth : Bool)
deriving DecidableEq, Repr

/-- Environment of one `disable-mfa-secure` request: the decoded JWT fields,
the request body, and the outcome of every external call the handler may
issue.  `Option` fields model absent (JavaScript-falsy) values. -/
structure DMEnv where
  tokenPresent : Bool
  tokenWellFormed : Bool
  tokenEmail : Option String
  tokenUserId : Option String
  tokenAAL : Option String
  password : Option String
  mfaCode : Option String
  passwordOk : Bool
  factorsError : Bool
  totpFactors : Option (List Factor)
  challengeOk : Bool
  codeOk : Bool
  profileRow : Option ProfileRow
  nowMs : ℚ
  profileUpdateOk : Bool
  unenrollOk : Bool
  signOutOk : Bool
  auditOk : Bool
deriving DecidableEq, Repr

/-- STEPs 6-9 of `disable-mfa-secure`: update the profile counters (a
failure is logged and swallowed), unenroll the factor (a failure throws,
becoming a 500), revoke all sessions (a failure is logged and swallowed:
"Continue anyway - MFA already disabled"), insert the audit record (a
failure is logged and swallowed), then return the success body. -/
def dmProceed (e : DMEnv) (verifiedFactor : Factor) (activeMfaFactors : List Factor)
    (trace : List DMCall) : DMResp × List DMCall :=
  let newFactorCount : Int := (activeMfaFactors.length : Int) - 1
  let t1 := trace ++ [DMCall.profileUpdate newFactorCount]
  let t2 := t1 ++ [DMCall.unenroll verifiedFactor.id]
  if ¬ e.unenrollOk then (DMResp.serverError "Failed to disable MFA", t2)
  else
    let t3 := t2 ++ [DMCall.signOutAll]
    let t4 := t3 ++ [DMCall.auditInsert "mfa_disabled"]
    (DMResp.success true, t4)

/-- STEPs 5 and 5.5 of `disable-mfa-secure`: the factor-hierarchy check,
then - only when the factor being disabled is the last verified one - the
cooling-period check, then the mutation steps. -/
def dmStep5 (e : DMEnv) (verifiedFactor : Factor) (trace : List DMCall) :
    DMResp × List DMCall :=
  let activeMfaFactors := (e.totpFactors.getD []).filter isVerified
  if hasStrongerFactors activeMfaFactors verifiedFactor then
    (DMResp.hierarchyViolation, trace)
  else if activeMfaFactors.length == 1 then
    let t := trace ++ [DMCall.profileSelect]
    match coolingRejection e.profileRow e.nowMs with
    | some hrs => (DMResp.coolingPeriod hrs, t)
    | none => dmProceed e verifiedFactor activeMfaFactors t
  else dmProceed e verifiedFactor activeMfaFactors trace

/-- The `disable-mfa-secure` handler: token checks, the AAL2 gate, body
validation, password verification (STEP 1), factor listing (STEP 2), MFA
code re-verification (STEP 4), then `dmStep5`. -/
def dmHandler (e : DMEnv) : DMResp × List DMCall :=
  if ¬ e.tokenPresent then (DMResp.serverError "No user token provided", [])
  else if ¬ e.tokenWellFormed then (DMResp.invalidTokenFormat, [])
  else if e.tokenEmail.isNone || e.tokenUserId.isNone then (DMResp.missingIdentity, [])
  else if e.tokenAAL ≠ some "aal2" then (DMResp.aal2Required true e.tokenAAL, [])
  else if e.password.isNone || e.mfaCode.isNone then (DMResp.missingFields, [])
  else
    let t1 := [DMCall.signInPassword]
    if ¬ e.passwordOk then (DMResp.invalidPassword, t1)
    else
      let t2 := t1 ++ [DMCall.listFactors]
      if e.factorsError then (DMResp.serverError "Could not retrieve MFA factors", t2)
      else
        match (e.totpFactors.getD []).find? isVerified with
        | none => (DMResp.noFactor, t2)
        | some verifiedFactor =>
          let t3 := t2 ++ [DMCall.challengeFactor]
          if ¬ e.challengeOk then (DMResp.serverError "Failed to create MFA challenge", t3)
          else
            let t4 := t3 ++ [DMCall.verifyCode]
            if ¬ e.codeOk then (DMResp.invalidMfaCode, t4)
            else dmStep5 e verifiedFactor t4

/-- The external calls the `change-password-secure` handler can issue. -/
inductive CPCall where
  | signInPassword
  | listFactors
  | updatePassword
  | signOutAll
  | auditInsert (eventType : String)
deriving DecidableEq, Repr

/-- Which `change-password-secure` calls mutate server-held state. -/
def CPCall.isMutation : CPCall → Bool
  | CPCall.updatePassword => true
  | CPCall.signOutAll => true
  | CPCall.auditInsert _ => true
  | _ => false

/-- The distinct responses of `change-password-secure`; the boolean on
`mfaRequired` is the `requiresMFA` field of the JSON body, the boolean on
`success` is its `requiresReauth` field. -/
inductive CPResp where
  | serverError (msg : String)
  | invalidTokenFormat
  | missingIdentity
  | missingFields
  | wrongPassword
  | mfaRequired (requiresMFA : Bool)
  | success (requiresReauth : Bool)
deriving DecidableEq, Repr

/-- Environment of one `change-password-secure` request.  `totpFactors`
models `mfaData?.totp` in STEP 2.5; the source destructures only `data` from
`listFactors`, so a failed call is `none` here and counts as "no MFA". -/
structure CPEnv where
  tokenPresent : Bool
  tokenWellFormed : Bool
  tokenEmail : Option String
  tokenUserId : Option String
  tokenAAL : Option String
  currentPassword : Option String
  newPassword : Option String
  passwordOk : Bool
  totpFactors : Option (List Factor)
  updateOk : Bool
  signOutOk : Bool
  auditOk : Bool
deriving DecidableEq, Repr

/-- STEPs 3-5 of `change-password-secure`: update the password (a failure
throws, becoming a 500), revoke all sessions (a failure is logged and
swallowed: "Continue anyway - password already changed"), insert the audit
record (a failure is logged and swallowed), then return the success body. -/
def cpProceed (e : CPEnv) (trace : List CPCall) : CPResp × List CPCall :=
  let t1 := trace ++ [CPCall.updatePassword]
  if ¬ e.updateOk then (CPResp.serverError "Failed to update password", t1)
  else
    let t2 := t1 ++ [CPCall.signOutAll]
    let t3 := t2 ++ [CPCall.auditInsert "password_changed"]
    (CPResp.success true, t3)

/-- The `change-password-secure` handler: token checks, body validation,
current-password verification (STEP 1), then the STEP 2.5 AAL2 gate (only
when the account has a verified factor), then `cpProceed`. -/
def cpHandler (e : CPEnv) : CPResp × List CPCall :=
  if ¬ e.tokenPresent then (CPResp.serverError "No user token provided", [])
  else if ¬ e.tokenWellFormed then (CPResp.invalidTokenFormat, [])
  else if e.tokenEmail.isNone || e.tokenUserId.isNone then (CPResp.missingIdentity, [])
  else if e.currentPassword.isNone || e.newPassword.isNone then (CPResp.missingFields, [])
  else
    let t1 := [CPCall.signInPassword]
    if ¬ e.passwordOk then (CPResp.wrongPassword, t1)
    else
      let t2 := t1 ++ [CPCall.listFactors]
      let hasMFA := (e.totpFactors.getD []).any isVerified
      if hasMFA then
        if e.tokenAAL ≠ some "aal2" then (CPResp.mfaRequired true, t2)
        else cpProceed e t2
      else cpProceed e t2

/-- One entry of a session's authentication-method (`amr`) list; the code
reads only its `method` field. -/
structure AmrEntry where
  method : String
deriving DecidableEq, Repr

/-- The session object as the route guard reads it: the `aal` convenience
field, whether an `access_token` is present, the `aal` claim recovered by
`decodeJWT` from that token (`none` when decoding fails or the claim is
absent), and the `amr` list of `session.user`. -/
structure GSession where
  aal : Option String
  hasAccessToken : Bool
  jwtAAL : Option String
  amr : Option (List AmrEntry)
deriving DecidableEq, Repr

/-- The user object of guard.js Step 5; the code reads only `user?.factors`. -/
structure GUser where
  factors : Option (List Factor)
deriving DecidableEq, Repr

/-- Environment of one guard.js page-load evaluation: outcomes of
`getSession` and `getUser`. -/
structure GuardEnv where
  sessionError : Bool
  session : Option GSession
  userError : Bool
  user : Option GUser
deriving DecidableEq, Repr

/-- Where a guard.js evaluation ends: a redirect to `index.html`
(`signedOut` records whether `signOut` was called first, `mfaFlag` whether
the redirect URL carries any flag that makes the sign-in page open its
second-factor prompt - guard.js never sets one), a redirect to
`reset-password.html`, or access to the protected page. -/
inductive GuardOutcome where
  | redirectLogin (signedOut : Bool) (mfaFlag : Bool)
  | redirectReset
  | grant
deriving DecidableEq, Repr

/-- Step 3.5 of guard.js: when `session.aal` is undefined and an access
token is present, adopt the `aal` claim decoded from the JWT (when that
decode yields one). -/
def effectiveAAL (s : GSession) : Option String :=
  match s.aal with
  | some a => some a
  | none => if s.hasAccessToken then s.jwtAAL else none

/-- The inline recovery-session test of guard.js Step 4: `session.user.amr`
is an array whose length is 1 and whose single entry's method is `otp`. -/
def guardRecoveryCheck (amr : Option (List AmrEntry)) : Bool :=
  match amr with
  | none => false
  | some l =>
    l.length == 1 &&
      (match l with
       | a :: _ => a.method == "otp"
       | [] => false)

/-- `isRecoverySession` from auth.js: `session.user.amr || []` has exactly
one entry and that entry's method is `otp`. -/
def isRecoverySession (s : GSession) : Bool :=
  let amr := s.amr.getD []
  amr.length == 1 &&
    (match amr with
     | a :: _ => a.method == "otp"
     | [] => false)

/-- Steps 5-7 of guard.js, after the recovery check: a `getUser` error signs
out and redirects; otherwise, when the account has a verified factor, an
undefined effective AAL signs out and redirects, `aal2` grants access, and
any other level signs out and redirects; accounts without verified factors
are granted access at AAL1. -/
def guardAfterRecovery (env : GuardEnv) (s : GSession) : GuardOutcome :=
  if env.userError then GuardOutcome.redirectLogin true false
  else
    let verifiedFactors := ((env.user.bind GUser.factors).getD []).filter isVerified
    if verifiedFactors.length > 0 then
      match s.aal with
      | none => GuardOutcome.redirectLogin true false
      | some a =>
        if a == "aal2" then GuardOutcome.grant
        else GuardOutcome.redirectLogin true false
    else GuardOutcome.grant

/-- The guard.js IIFE: session retrieval (Steps 2-3), the JWT fallback for
the AAL field (Step 3.5), the recovery-session redirect (Step 4), then
`guardAfterRecovery` (Steps 5-7). -/
def guard (env : GuardEnv) : GuardOutcome :=
  if env.sessionError then GuardOutcome.redirectLogin false false
  else
    match env.session with
    | none => GuardOutcome.redirectLogin false false
    | some s0 =>
      let s : GSession := { s0 with aal := effectiveAAL s0 }
      if guardRecoveryCheck s.amr then GuardOutcome.redirectReset
      else guardAfterRecovery env s

/-- Environment of one `requireAuth` call (auth.js): outcomes of
`getSession`, the `refreshSession` fallback, and `listFactors`. -/
structure RAEnv where
  clientOk : Bool
  getSessionError : Bool
  getSessionResult : Option GSession
  refreshError : Option String
  refreshResult : Option GSession
  totpFactors : Option (List Factor)
deriving DecidableEq, Repr

/-- Where a `requireAuth` call ends: a thrown error, the redirect to
`login.html?mfa_required=1` (which halts the page without signing out), or
the session being returned to the caller. -/
inductive RAOutcome where
  | thrown (msg : String)
  | redirectMfaLogin
  | granted
deriving DecidableEq, Repr

/-- `requireAuth` from auth.js: get the session (refreshing once when it is
absent), throw when none can be established, then redirect to the login page
with the `mfa_required=1` flag when the account has a verified factor but
the session is only `aal1`; otherwise return the session. -/
def requireAuth (env : RAEnv) : RAOutcome :=
  if ¬ env.clientOk then RAOutcome.thrown "Supabase client not initialized"
  else if env.getSessionError then RAOutcome.thrown "getSession error"
  else
    let sessionAfter :=
      match env.getSessionResult with
      | some s => some s
      | none => env.refreshResult
    if env.getSessionResult.isNone ∧ env.refreshError.isSome ∧
        env.refreshError ≠ some "Auth session missing!" then
      RAOutcome.thrown "refresh error"
    else
      match sessionAfter with
      | none => RAOutcome.thrown "Not authenticated"
      | some s =>
        let verifiedFactors := (env.totpFactors.getD []).filter isVerified
        if verifiedFactors.length > 0 && s.aal == some "aal1" then
          RAOutcome.redirectMfaLogin
        else RAOutcome.granted

/-! ## Concrete environments used by the witnesses -/

/-- A verified TOTP factor. -/
def totpFactor : Factor :=
  { id := "factor-totp", factor_type := "totp", status := "verified" }

/-- A verified WebAuthn (hardware-key) factor. -/
def webauthnFactor : Factor :=
  { id := "factor-wa", factor_type := "webauthn", status := "verified" }

/-- A verified SMS factor. -/
def smsFactor : Factor :=
  { id := "factor-sms", factor_type := "phone", status := "verified" }

/-- A profile row whose last MFA change is at epoch-millisecond 0 and whose
stored factor count is 1. -/
def baseProfile : ProfileRow :=
  { last_mfa_change := some 0, mfa_factors_count := 1 }

/-- A fully healthy `disable-mfa-secure` request: AAL2 token, correct
password and code, one verified TOTP factor, cooling period long past
(90 hours since the last change). -/
def dmEnvOk : DMEnv :=
  { tokenPresent := true
    tokenWellFormed := true
    tokenEmail := some "user@example.com"
    tokenUserId := some "user-1"
    tokenAAL := some "aal2"
    password := some "hunter2"
    mfaCode := some "123456"
    passwordOk := true
    factorsError := false
    totpFactors := some [totpFactor]
    challengeOk := true
    codeOk := true
    profileRow := some baseProfile
    nowMs := 90 * (1000 * 60 * 60)
    profileUpdateOk := true
    unenrollOk := true
    signOutOk := true
    auditOk := true }

/-- A fully healthy `change-password-secure` request from an AAL2 session of
an account with one verified TOTP factor. -/
def cpEnvOk : CPEnv :=
  { tokenPresent := true
    tokenWellFormed := true
    tokenEmail := some "user@example.com"
    tokenUserId := some "user-1"
    tokenAAL := some "aal2"
    currentPassword := some "hunter2"
    newPassword := some "correct-horse"
    passwordOk := true
    totpFactors := some [totpFactor]
    updateOk := true
    signOutOk := true
    auditOk := true }

/-- A normal password-login `amr` entry. -/
def passwordAmr : AmrEntry := { method := "password" }

/-- The recovery-method `amr` entry. -/
def otpAmr : AmrEntry := { method := "otp" }

/-- An AAL1 session of a normal password login. -/
def guardSessionAal1 : GSession :=
  { aal := some "aal1"
    hasAccessToken := true
    jwtAAL := some "aal1"
    amr := some [passwordAmr] }

/-- A page load by an AAL1 session of an account with a verified factor. -/
def guardEnvAal1 : GuardEnv :=
  { sessionError := false
    session := some guardSessionAal1
    userError := false
    user := some { factors := some [totpFactor] } }

/-- A recovery session (its `amr` list is exactly `[otp]`) that claims
AAL2. -/
def recoverySession : GSession :=
  { aal := some "aal2"
    hasAccessToken := true
    jwtAAL := some "aal2"
    amr := some [otpAmr] }

/-- A page load by a recovery session of an account with a verified
factor. -/
def guardEnvRecovery : GuardEnv :=
  { sessionError := false
    session := some recoverySession
    userError := false
    user := some { factors := some [totpFactor] } }

/-- A `requireAuth` call by an AAL1 session of an account with a verified
factor. -/
def raEnvAal1 : RAEnv :=
  { clientOk := true
    getSessionError := false
    getSessionResult := some guardSessionAal1
    refreshError := none
    refreshResult := none
    totpFactors := some [totpFactor] }

/-! ## Helper lemmas -/

/-- A request that passes the token checks, the AAL2 gate, body validation,
password verification, factor listing and code re-verification reaches
STEP 5 with the four verification calls in its trace. -/
lemma dmHandler_reaches_step5 (e : DMEnv) (em uid pw code : String) (vf : Factor)
    (hTok : e.tokenPresent = true) (hWf : e.tokenWellFormed = true)
    (hEm : e.tokenEmail = some em) (hUid : e.tokenUserId = some uid)
    (hAal : e.tokenAAL = some "aal2")
    (hPw : e.password = some pw) (hCode : e.mfaCode = some code)
    (hPwOk : e.passwordOk = true) (hFe : e.factorsError = false)
    (hFind : (e.totpFactors.getD []).find? isVerified = some vf)
    (hCh : e.challengeOk = true) (hCodeOk : e.codeOk = true) :
    dmHandler e = dmStep5 e vf
      [DMCall.signInPassword, DMCall.listFactors, DMCall.challengeFactor,
        DMCall.verifyCode] := by
  simp [dmHandler, hTok, hWf, hEm, hUid, hAal, hPw, hCode, hPwOk, hFe, hFind, hCh, hCodeOk]

/-- The `hasStrongerFactors` test holds exactly when some listed factor with
a different id has strictly greater strength. -/
lemma hasStrongerFactors_iff (active : List Factor) (vf : Factor) :
    hasStrongerFactors active vf = true ↔
      ∃ f ∈ active, f.id ≠ vf.id ∧
        FACTOR_STRENGTH vf.factor_type < FACTOR_STRENGTH f.factor_type := by
  simp [hasStrongerFactors, List.any_eq_true, bne_iff_ne, gt_iff_lt]

/-- A factor never has strictly greater strength than itself under a
different id, so a singleton active list never triggers the hierarchy
check against its own element. -/
lemma hasStrongerFactors_self (vf : Factor) : hasStrongerFactors [vf] vf = false := by
  simp [hasStrongerFactors]

/-- When the verified-factor filter has length one, it is exactly the
factor that `find?` located. -/
lemma filter_eq_singleton_of_find (l : List Factor) (vf : Factor)
    (hFind : l.find? isVerified = some vf)
    (hLen : (l.filter isVerified).length = 1) :
    l.filter isVerified = [vf] := by
  obtain ⟨a, ha⟩ := List.length_eq_one.mp hLen
  have hmem : vf ∈ l.filter isVerified :=
    List.mem_filter.mpr ⟨List.mem_of_find?_eq_some hFind, List.find?_some hFind⟩
  rw [ha] at hmem ⊢
  simp only [List.mem_singleton] at hmem
  rw [hmem]

/-! ## The claims -/

/-- C4: a disable-mfa request whose token does not carry the `aal2` claim is
rejected before any external call with `requiresAAL2 = true`; a request
whose token carries `aal2` and whose password and MFA code verify (and which
passes the removal guard) re-verifies the factor challenge and returns
`{success: true, requiresReauth: true}`. -/
theorem C4_aal2_gate_and_reverify :
    (∀ e : DMEnv, e.tokenPresent = true → e.tokenWellFormed = true →
      e.tokenEmail ≠ none → e.tokenUserId ≠ none → e.tokenAAL ≠ some "aal2" →
      dmHandler e = (DMResp.aal2Required true e.tokenAAL, [])) ∧
    (∀ (e : DMEnv) (em uid pw code : String) (vf : Factor),
      e.tokenPresent = true → e.tokenWellFormed = true →
      e.tokenEmail = some em → e.tokenUserId = some uid →
      e.tokenAAL = some "aal2" →
      e.password = some pw → e.mfaCode = some code →
      e.passwordOk = true → e.factorsError = false →
      (e.totpFactors.getD []).find? isVerified = some vf →
      e.challengeOk = true → e.codeOk = true →
      hasStrongerFactors ((e.totpFactors.getD []).filter isVerified) vf = false →
      coolingRejection e.profileRow e.nowMs = none →
      e.unenrollOk = true →
      (dmHandler e).1 = DMResp.success true ∧
        DMCall.verifyCode ∈ (dmHandler e).2) := by
  constructor
  · intro e h1 h2 h3 h4 h5
    simp [dmHandler, h1, h2, h5, Option.isNone_iff_eq_none, h3, h4]
  · intro e em uid pw code vf h1 h2 h3 h4 h5 h6 h7 h8 h9 h10 h11 h12 hS hC hU
    rw [dmHandler_reaches_step5 e em uid pw code vf h1 h2 h3 h4 h5 h6 h7 h8 h9 h10 h11 h12]
    by_cases hL : ((e.totpFactors.getD []).filter isVerified).length = 1
    · simp [dmStep5, hS, hL, hC, dmProceed, hU]
    · simp [dmStep5, hS, hL, dmProceed, hU]

/-- C4 witness: the AAL1 request is rejected with `requiresAAL2` and an
empty call trace; the healthy AAL2 request succeeds after re-verifying the
code. -/
theorem C4_witness :
    dmHandler { dmEnvOk with tokenAAL := some "aal1" } =
      (DMResp.aal2Required true (some "aal1"), []) ∧
    ((dmHandler dmEnvOk).1 = DMResp.success true ∧
      DMCall.verifyCode ∈ (dmHandler dmEnvOk).2) := by
  constructor
  · exact C4_aal2_gate_and_reverify.1 _ rfl rfl (by simp [dmEnvOk]) (by simp [dmEnvOk])
      (by simp [dmEnvOk])
  · exact C4_aal2_gate_and_reverify.2 dmEnvOk "user@example.com" "user-1" "hunter2"
      "123456" totpFactor rfl rfl rfl rfl rfl rfl rfl rfl rfl
      (by simp [dmEnvOk, totpFactor, isVerified])
      rfl rfl
      (by simp [dmEnvOk, hasStrongerFactors, totpFactor])
      (by simp [coolingRejection, dmEnvOk, baseProfile]; norm_num)
      rfl

/-- C1 counterexample: with every step healthy except the revoke-all-sessions
call, both endpoints still answer with the success body even though the core
mutation (unenroll, password update) committed and revocation failed - the
claim says the response must be an operation failure. -/
theorem C1_counterexample :
    (dmHandler { dmEnvOk with signOutOk := false }).1 = DMResp.success true ∧
    DMCall.unenroll "factor-totp" ∈ (dmHandler { dmEnvOk with signOutOk := false }).2 ∧
    DMCall.signOutAll ∈ (dmHandler { dmEnvOk with signOutOk := false }).2 ∧
    (cpHandler { cpEnvOk with signOutOk := false }).1 = CPResp.success true ∧
    CPCall.updatePassword ∈ (cpHandler { cpEnvOk with signOutOk := false }).2 ∧
    CPCall.signOutAll ∈ (cpHandler { cpEnvOk with signOutOk := false }).2 := by
  refine ⟨?_, ?_, ?_, ?_, ?_, ?_⟩ <;>
    simp [dmHandler, dmStep5, dmProceed, cpHandler, cpProceed, coolingRejection,
      dmEnvOk, cpEnvOk, baseProfile, totpFactor, isVerified, hasStrongerFactors] <;>
    norm_num

/-- C1 (amended): when the revoke-all-sessions call fails after the core
mutation has committed, both endpoints log and swallow the failure and still
return the success result - the revocation outcome is never surfaced as an
operation failure. -/
theorem C1_amended_revocation_failure_swallowed
    (d : DMEnv) (c : CPEnv) (em uid pw code cem cuid cpw npw : String) (vf : Factor)
    (h1 : d.tokenPresent = true) (h2 : d.tokenWellFormed = true)
    (h3 : d.tokenEmail = some em) (h4 : d.tokenUserId = some uid)
    (h5 : d.tokenAAL = some "aal2")
    (h6 : d.password = some pw) (h7 : d.mfaCode = some code)
    (h8 : d.passwordOk = true) (h9 : d.factorsError = false)
    (h10 : (d.totpFactors.getD []).find? isVerified = some vf)
    (h11 : d.challengeOk = true) (h12 : d.codeOk = true)
    (hS : hasStrongerFactors ((d.totpFactors.getD []).filter isVerified) vf = false)
    (hC : coolingRejection d.profileRow d.nowMs = none)
    (hU : d.unenrollOk = true)
    (hSo : d.signOutOk = false)
    (g1 : c.tokenPresent = true) (g2 : c.tokenWellFormed = true)
    (g3 : c.tokenEmail = some cem) (g4 : c.tokenUserId = some cuid)
    (g5 : c.currentPassword = some cpw) (g6 : c.newPassword = some npw)
    (g7 : c.passwordOk = true) (g8 : c.tokenAAL = some "aal2")
    (g9 : c.updateOk = true) (g10 : c.signOutOk = false) :
    ((dmHandler d).1 = DMResp.success true ∧ DMCall.signOutAll ∈ (dmHandler d).2) ∧
    ((cpHandler c).1 = CPResp.success true ∧ CPCall.signOutAll ∈ (cpHandler c).2) := by
  constructor
  · rw [dmHandler_reaches_step5 d em uid pw code vf h1 h2 h3 h4 h5 h6 h7 h8 h9 h10 h11 h12]
    by_cases hL : ((d.totpFactors.getD []).filter isVerified).length = 1
    · simp [dmStep5, hS, hL, hC, dmProceed, hU]
    · simp [dmStep5, hS, hL, dmProceed, hU]
  · by_cases hM : ((c.totpFactors.getD []).any isVerified : Bool)
    · simp [cpHandler, g1, g2, g3, g4, g5, g6, g7, g8, hM, cpProceed, g9]
    · simp [cpHandler, g1, g2, g3, g4, g5, g6, g7, g8, hM, cpProceed, g9]

/-- C1 (amended) witness: the concrete runs with a failed revocation. -/
theorem C1_amended_witness :
    (((dmHandler { dmEnvOk with signOutOk := false }).1 = DMResp.success true ∧
      DMCall.signOutAll ∈ (dmHandler { dmEnvOk with signOutOk := false }).2) ∧
     ((cpHandler { cpEnvOk with signOutOk := false }).1 = CPResp.success true ∧
      CPCall.signOutAll ∈ (cpHandler { cpEnvOk with signOutOk := false }).2)) :=
  C1_amended_revocation_failure_swallowed
    { dmEnvOk with signOutOk := false } { cpEnvOk with signOutOk := false }
    "user@example.com" "user-1" "hunter2" "123456"
    "user@example.com" "user-1" "hunter2" "correct-horse" totpFactor
    rfl rfl rfl rfl rfl rfl rfl rfl rfl
    (by simp [dmEnvOk, totpFactor, isVerified])
    rfl rfl
    (by simp [dmEnvOk, hasStrongerFactors, totpFactor])
    (by simp [coolingRejection, dmEnvOk, baseProfile]; norm_num)
    rfl rfl
    rfl rfl rfl rfl rfl rfl rfl rfl rfl rfl

/-- C9: when the core mutation and the session revocation have completed and
only the audit-log insert fails, both endpoints still return the success
result; the audit failure is never surfaced. -/
theorem C9_audit_failure_swallowed
    (d : DMEnv) (c : CPEnv) (em uid pw code cem cuid cpw npw : String) (vf : Factor)
    (h1 : d.tokenPresent = true) (h2 : d.tokenWellFormed = true)
    (h3 : d.tokenEmail = some em) (h4 : d.tokenUserId = some uid)
    (h5 : d.tokenAAL = some "aal2")
    (h6 : d.password = some pw) (h7 : d.mfaCode = some code)
    (h8 : d.passwordOk = true) (h9 : d.factorsError = false)
    (h10 : (d.totpFactors.getD []).find? isVerified = some vf)
    (h11 : d.challengeOk = true) (h12 : d.codeOk = true)
    (hS : hasStrongerFactors ((d.totpFactors.getD []).filter isVerified) vf = false)
    (hC : coolingRejection d.profileRow d.nowMs = none)
    (hU : d.unenrollOk = true)
    (hSo : d.signOutOk = true) (hA : d.auditOk = false)
    (g1 : c.tokenPresent = true) (g2 : c.tokenWellFormed = true)
    (g3 : c.tokenEmail = some cem) (g4 : c.tokenUserId = some cuid)
    (g5 : c.currentPassword = some cpw) (g6 : c.newPassword = some npw)
    (g7 : c.passwordOk = true) (g8 : c.tokenAAL = some "aal2")
    (g9 : c.updateOk = true) (g10 : c.signOutOk = true) (g11 : c.auditOk = false) :
    ((dmHandler d).1 = DMResp.success true ∧
      DMCall.auditInsert "mfa_disabled" ∈ (dmHandler d).2) ∧
    ((cpHandler c).1 = CPResp.success true ∧
      CPCall.auditInsert "password_changed" ∈ (cpHandler c).2) := by
  constructor
  · rw [dmHandler_reaches_step5 d em uid pw code vf h1 h2 h3 h4 h5 h6 h7 h8 h9 h10 h11 h12]
    by_cases hL : ((d.totpFactors.getD []).filter isVerified).length = 1
    · simp [dmStep5, hS, hL, hC, dmProceed, hU]
    · simp [dmStep5, hS, hL, dmProceed, hU]
  · by_cases hM : ((c.totpFactors.getD []).any isVerified : Bool)
    · simp [cpHandler, g1, g2, g3, g4, g5, g6, g7, g8, hM, cpProceed, g9]
    · simp [cpHandler, g1, g2, g3, g4, g5, g6, g7, g8, hM, cpProceed, g9]

/-- C9 witness: the concrete runs with a failed audit insert. -/
theorem C9_witness :
    (((dmHandler { dmEnvOk with auditOk := false }).1 = DMResp.success true ∧
      DMCall.auditInsert "mfa_disabled" ∈ (dmHandler { dmEnvOk with auditOk := false }).2) ∧
     ((cpHandler { cpEnvOk with auditOk := false }).1 = CPResp.success true ∧
      CPCall.auditInsert "password_changed" ∈
        (cpHandler { cpEnvOk with auditOk := false }).2)) :=
  C9_audit_failure_swallowed
    { dmEnvOk with auditOk := false } { cpEnvOk with auditOk := false }
    "user@example.com" "user-1" "hunter2" "123456"
    "user@example.com" "user-1" "hunter2" "correct-horse" totpFactor
    rfl rfl rfl rfl rfl rfl rfl rfl rfl
    (by simp [dmEnvOk, totpFactor, isVerified])
    rfl rfl
    (by simp [dmEnvOk, hasStrongerFactors, totpFactor])
    (by simp [coolingRejection, dmEnvOk, baseProfile]; norm_num)
    rfl rfl rfl
    rfl rfl rfl rfl rfl rfl rfl rfl rfl rfl rfl

/-- A second verified TOTP factor (same strength as `totpFactor`). -/
def totpFactor2 : Factor :=
  { id := "factor-totp-2", factor_type := "totp", status := "verified" }

/-- The healthy disable request against an account that also has a verified
WebAuthn factor (stronger than the TOTP factor being disabled). -/
def dmEnvTwoFactors : DMEnv :=
  { dmEnvOk with totpFactors := some [totpFactor, webauthnFactor] }

/-- The healthy disable request against an account with two equal-strength
verified TOTP factors. -/
def dmEnvTwinTotp : DMEnv :=
  { dmEnvOk with totpFactors := some [totpFactor, totpFactor2] }

/-- A profile row recording an MFA change one hour before `dmEnvOk.nowMs`
but a stale factor count of zero. -/
def staleProfile : ProfileRow :=
  { last_mfa_change := some (89 * (1000 * 60 * 60)), mfa_factors_count := 0 }

/-- STEP 5 rejects with the hierarchy error exactly when
`hasStrongerFactors` holds of the verified factors. -/
lemma dmStep5_hierarchy_iff (e : DMEnv) (vf : Factor) (t : List DMCall) :
    (dmStep5 e vf t).1 = DMResp.hierarchyViolation ↔
      hasStrongerFactors ((e.totpFactors.getD []).filter isVerified) vf = true := by
  cases hS : hasStrongerFactors ((e.totpFactors.getD []).filter isVerified) vf
  · simp only [dmStep5, hS, Bool.false_eq_true, if_false, iff_false]
    split
    · split
      · simp
      · simp only [dmProceed]
        split <;> simp
    · simp only [dmProceed]
      split <;> simp
  · simp [dmStep5, hS]

/-- C2: with the password and code verified, the disable is rejected for a
hierarchy violation exactly when some other verified factor (different id)
has strictly greater strength than the factor being disabled under the
fixed ranking webauthn > totp > phone > email; equal-strength factors never
trigger the rejection. -/
theorem C2_factor_hierarchy (e : DMEnv) (em uid pw code : String) (vf : Factor)
    (h1 : e.tokenPresent = true) (h2 : e.tokenWellFormed = true)
    (h3 : e.tokenEmail = some em) (h4 : e.tokenUserId = some uid)
    (h5 : e.tokenAAL = some "aal2")
    (h6 : e.password = some pw) (h7 : e.mfaCode = some code)
    (h8 : e.passwordOk = true) (h9 : e.factorsError = false)
    (h10 : (e.totpFactors.getD []).find? isVerified = some vf)
    (h11 : e.challengeOk = true) (h12 : e.codeOk = true) :
    ((dmHandler e).1 = DMResp.hierarchyViolation ↔
      ∃ f ∈ (e.totpFactors.getD []).filter isVerified,
        f.id ≠ vf.id ∧
          FACTOR_STRENGTH vf.factor_type < FACTOR_STRENGTH f.factor_type) ∧
    FACTOR_STRENGTH "totp" < FACTOR_STRENGTH "webauthn" ∧
    FACTOR_STRENGTH "phone" < FACTOR_STRENGTH "totp" ∧
    FACTOR_STRENGTH "email" < FACTOR_STRENGTH "phone" := by
  refine ⟨?_, by simp [FACTOR_STRENGTH], by simp [FACTOR_STRENGTH],
    by simp [FACTOR_STRENGTH]⟩
  rw [dmHandler_reaches_step5 e em uid pw code vf h1 h2 h3 h4 h5 h6 h7 h8 h9 h10 h11 h12]
  rw [dmStep5_hierarchy_iff]
  exact hasStrongerFactors_iff _ vf

/-- C2 witness: with TOTP and WebAuthn verified, disabling the TOTP factor
is rejected; with two equal-strength TOTP factors it is not. -/
theorem C2_witness :
    (dmHandler dmEnvTwoFactors).1 = DMResp.hierarchyViolation ∧
    (dmHandler dmEnvTwinTotp).1 ≠ DMResp.hierarchyViolation := by
  constructor
  · exact (C2_factor_hierarchy dmEnvTwoFactors "user@example.com" "user-1" "hunter2"
        "123456" totpFactor rfl rfl rfl rfl rfl rfl rfl rfl rfl
        (by simp [dmEnvTwoFactors, dmEnvOk, totpFactor, webauthnFactor, isVerified])
        rfl rfl).1.mpr
      ⟨webauthnFactor,
        by simp [dmEnvTwoFactors, dmEnvOk, totpFactor, webauthnFactor, isVerified],
        by simp [totpFactor, webauthnFactor],
        by simp [totpFactor, webauthnFactor, FACTOR_STRENGTH]⟩
  · intro h
    have hex := (C2_factor_hierarchy dmEnvTwinTotp "user@example.com" "user-1" "hunter2"
        "123456" totpFactor rfl rfl rfl rfl rfl rfl rfl rfl rfl
        (by simp [dmEnvTwinTotp, dmEnvOk, totpFactor, totpFactor2, isVerified])
        rfl rfl).1.mp h
    revert hex
    simp [dmEnvTwinTotp, dmEnvOk, totpFactor, totpFactor2, isVerified, FACTOR_STRENGTH]

/-- C3: when the factor being disabled is the last verified one and the
profile row is intact (row found, `last_mfa_change` set, positive stored
count), the disable is rejected exactly when less than 24 hours have passed
since the last MFA change, with `hoursRemaining` the remaining wait rounded
up; at or past 24 hours it succeeds. -/
theorem C3_cooling_period (e : DMEnv) (em uid pw code : String) (vf : Factor)
    (p : ProfileRow) (lastChange : ℚ)
    (h1 : e.tokenPresent = true) (h2 : e.tokenWellFormed = true)
    (h3 : e.tokenEmail = some em) (h4 : e.tokenUserId = some uid)
    (h5 : e.tokenAAL = some "aal2")
    (h6 : e.password = some pw) (h7 : e.mfaCode = some code)
    (h8 : e.passwordOk = true) (h9 : e.factorsError = false)
    (h10 : (e.totpFactors.getD []).find? isVerified = some vf)
    (h11 : e.challengeOk = true) (h12 : e.codeOk = true)
    (hLen : ((e.totpFactors.getD []).filter isVerified).length = 1)
    (hp : e.profileRow = some p)
    (hl : p.last_mfa_change = some lastChange)
    (hn : 0 < p.mfa_factors_count)
    (hU : e.unenrollOk = true) :
    ((e.nowMs - lastChange) / (1000 * 60 * 60) < 24 →
      (dmHandler e).1 =
        DMResp.coolingPeriod (Int.ceil (24 - (e.nowMs - lastChange) / (1000 * 60 * 60)))) ∧
    (24 ≤ (e.nowMs - lastChange) / (1000 * 60 * 60) →
      (dmHandler e).1 = DMResp.success true) := by
  have hfilter := filter_eq_singleton_of_find _ _ h10 hLen
  have hS : hasStrongerFactors ((e.totpFactors.getD []).filter isVerified) vf = false := by
    rw [hfilter]; exact hasStrongerFactors_self vf
  rw [dmHandler_reaches_step5 e em uid pw code vf h1 h2 h3 h4 h5 h6 h7 h8 h9 h10 h11 h12]
  constructor
  · intro hlt
    simp [dmStep5, hS, hLen, coolingRejection, hp, hl, hn, hlt]
  · intro hge
    simp [dmStep5, hS, hLen, coolingRejection, hp, hl, hn, not_lt.mpr hge, dmProceed, hU]

/-- C3 witness: with the last change 23 hours ago the disable is rejected
with `hoursRemaining = 1`; with it 25 hours ago the disable succeeds. -/
theorem C3_witness :
    (dmHandler { dmEnvOk with nowMs := 23 * (1000 * 60 * 60) }).1 =
      DMResp.coolingPeriod 1 ∧
    (dmHandler { dmEnvOk with nowMs := 25 * (1000 * 60 * 60) }).1 =
      DMResp.success true := by
  constructor
  · have h := (C3_cooling_period { dmEnvOk with nowMs := 23 * (1000 * 60 * 60) }
      "user@example.com" "user-1" "hunter2" "123456" totpFactor baseProfile 0
      rfl rfl rfl rfl rfl rfl rfl rfl rfl
      (by simp [dmEnvOk, totpFactor, isVerified]) rfl rfl
      (by simp [dmEnvOk, totpFactor, isVerified])
      rfl rfl (by norm_num [baseProfile]) rfl).1 (by norm_num [dmEnvOk])
    rw [h]
    norm_num [dmEnvOk]
  · exact (C3_cooling_period { dmEnvOk with nowMs := 25 * (1000 * 60 * 60) }
      "user@example.com" "user-1" "hunter2" "123456" totpFactor baseProfile 0
      rfl rfl rfl rfl rfl rfl rfl rfl rfl
      (by simp [dmEnvOk, totpFactor, isVerified]) rfl rfl
      (by simp [dmEnvOk, totpFactor, isVerified])
      rfl rfl (by norm_num [baseProfile]) rfl).2 (by norm_num [dmEnvOk])

/-- C10: when the factor being disabled is the last verified one but the
profile lookup fails, or the stored `last_mfa_change` is null, or the stored
`mfa_factors_count` is not positive, the cooling-period rejection can never
fire and the handler proceeds to the mutation calls (fail-open). -/
theorem C10_cooling_fails_open (e : DMEnv) (em uid pw code : String) (vf : Factor)
    (h1 : e.tokenPresent = true) (h2 : e.tokenWellFormed = true)
    (h3 : e.tokenEmail = some em) (h4 : e.tokenUserId = some uid)
    (h5 : e.tokenAAL = some "aal2")
    (h6 : e.password = some pw) (h7 : e.mfaCode = some code)
    (h8 : e.passwordOk = true) (h9 : e.factorsError = false)
    (h10 : (e.totpFactors.getD []).find? isVerified = some vf)
    (h11 : e.challengeOk = true) (h12 : e.codeOk = true)
    (hLen : ((e.totpFactors.getD []).filter isVerified).length = 1)
    (hguard : e.profileRow = none ∨
      (∃ p, e.profileRow = some p ∧ p.last_mfa_change = none) ∨
      (∃ p, e.profileRow = some p ∧ p.mfa_factors_count ≤ 0)) :
    (∀ hrs : Int, (dmHandler e).1 ≠ DMResp.coolingPeriod hrs) ∧
    DMCall.profileSelect ∈ (dmHandler e).2 ∧
    DMCall.profileUpdate 0 ∈ (dmHandler e).2 ∧
    DMCall.unenroll vf.id ∈ (dmHandler e).2 := by
  have hfilter := filter_eq_singleton_of_find _ _ h10 hLen
  have hS : hasStrongerFactors ((e.totpFactors.getD []).filter isVerified) vf = false := by
    rw [hfilter]; exact hasStrongerFactors_self vf
  have hcr : coolingRejection e.profileRow e.nowMs = none := by
    rcases hguard with h | ⟨p, hp, hlast⟩ | ⟨p, hp, hcount⟩
    · simp [coolingRejection, h]
    · simp [coolingRejection, hp, hlast]
    · cases hl2 : p.last_mfa_change <;>
        simp [coolingRejection, hp, hl2, not_lt.mpr hcount]
  rw [dmHandler_reaches_step5 e em uid pw code vf h1 h2 h3 h4 h5 h6 h7 h8 h9 h10 h11 h12]
  by_cases hU : e.unenrollOk
  · simp [dmStep5, hS, hLen, hcr, dmProceed, hU, hfilter, hasStrongerFactors_self]
  · simp [dmStep5, hS, hLen, hcr, dmProceed, hU, hfilter, hasStrongerFactors_self]

/-- C10 witness: with a recent MFA change on record (one hour ago) but a
stale stored count of zero, the disable is not blocked and the mutation
calls are issued. -/
theorem C10_witness :
    (dmHandler { dmEnvOk with profileRow := some staleProfile }).1 ≠
      DMResp.coolingPeriod 24 ∧
    DMCall.profileUpdate 0 ∈
      (dmHandler { dmEnvOk with profileRow := some staleProfile }).2 ∧
    DMCall.unenroll "factor-totp" ∈
      (dmHandler { dmEnvOk with profileRow := some staleProfile }).2 := by
  have h := C10_cooling_fails_open { dmEnvOk with profileRow := some staleProfile }
    "user@example.com" "user-1" "hunter2" "123456" totpFactor
    rfl rfl rfl rfl rfl rfl rfl rfl rfl
    (by simp [dmEnvOk, totpFactor, isVerified]) rfl rfl
    (by simp [dmEnvOk, totpFactor, isVerified])
    (Or.inr (Or.inr ⟨staleProfile, rfl, by norm_num [staleProfile]⟩))
  exact ⟨h.1 24, h.2.2.1, h.2.2.2⟩

/-- C8: a disable request rejected for a wrong password, a wrong MFA code,
a hierarchy violation or the cooling period issues no mutating call: the
factor set, the profile row, the account's sessions and the audit log are
all untouched. -/
lemma dmStep5_mutation_cases (e : DMEnv) (vf : Factor) (t : List DMCall) :
    (dmStep5 e vf t).2.filter DMCall.isMutation = t.filter DMCall.isMutation ∨
    (dmStep5 e vf t).1 = DMResp.serverError "Failed to disable MFA" ∨
    (dmStep5 e vf t).1 = DMResp.success true := by
  by_cases hS : hasStrongerFactors ((e.totpFactors.getD []).filter isVerified) vf = true
  · left
    simp [dmStep5, hS]
  by_cases hL : ((e.totpFactors.getD []).filter isVerified).length = 1
  · cases hcr : coolingRejection e.profileRow e.nowMs with
    | some hrs =>
      left
      simp [dmStep5, hS, hL, hcr, DMCall.isMutation, List.filter_append]
    | none =>
      by_cases hU : e.unenrollOk
      · right; right
        simp [dmStep5, dmProceed, hS, hL, hcr, hU]
      · right; left
        simp [dmStep5, dmProceed, hS, hL, hcr, hU]
  by_cases hU : e.unenrollOk
  · right; right
    simp [dmStep5, dmProceed, hS, hL, hU]
  · right; left
    simp [dmStep5, dmProceed, hS, hL, hU]

lemma dmHandler_mutation_cases (e : DMEnv) :
    (dmHandler e).2.filter DMCall.isMutation = [] ∨
    (dmHandler e).1 = DMResp.serverError "Failed to disable MFA" ∨
    (dmHandler e).1 = DMResp.success true := by
  cases h1 : e.tokenPresent with
  | false => left; simp [dmHandler, h1, DMCall.isMutation]
  | true =>
  cases h2 : e.tokenWellFormed with
  | false => left; simp [dmHandler, h1, h2, DMCall.isMutation]
  | true =>
  by_cases h3 : (e.tokenEmail.isNone || e.tokenUserId.isNone) = true
  · left; simp [dmHandler, h1, h2, h3, DMCall.isMutation]
  by_cases h4 : e.tokenAAL ≠ some "aal2"
  · left; simp [dmHandler, h1, h2, h3, h4, DMCall.isMutation]
  have h4e : e.tokenAAL = some "aal2" := not_not.mp h4
  by_cases h5 : (e.password.isNone || e.mfaCode.isNone) = true
  · left; simp [dmHandler, h1, h2, h3, h4e, h5, DMCall.isMutation]
  cases h6 : e.passwordOk with
  | false => left; simp [dmHandler, h1, h2, h3, h4e, h5, h6, DMCall.isMutation]
  | true =>
  cases h7 : e.factorsError with
  | true => left; simp [dmHandler, h1, h2, h3, h4e, h5, h6, h7, DMCall.isMutation]
  | false =>
  cases h8 : (e.totpFactors.getD []).find? isVerified with
  | none => left; simp [dmHandler, h1, h2, h3, h4e, h5, h6, h7, h8, DMCall.isMutation]
  | some vf =>
  cases h9 : e.challengeOk with
  | false => left; simp [dmHandler, h1, h2, h3, h4e, h5, h6, h7, h8, h9, DMCall.isMutation]
  | true =>
  cases h10 : e.codeOk with
  | false => left; simp [dmHandler, h1, h2, h3, h4e, h5, h6, h7, h8, h9, h10, DMCall.isMutation]
  | true =>
  have hreach : dmHandler e = dmStep5 e vf
      [DMCall.signInPassword, DMCall.listFactors, DMCall.challengeFactor,
        DMCall.verifyCode] := by
    simp [dmHandler, h1, h2, h3, h4e, h5, h6, h7, h8, h9, h10]
  rw [hreach]
  rcases dmStep5_mutation_cases e vf _ with hm | hr | hr
  · left
    rw [hm]
    simp [DMCall.isMutation]
  · right; left; exact hr
  · right; right; exact hr

theorem C8_no_mutation_before_error (e : DMEnv)
    (h : (dmHandler e).1 = DMResp.invalidPassword ∨
         (dmHandler e).1 = DMResp.invalidMfaCode ∨
         (dmHandler e).1 = DMResp.hierarchyViolation ∨
         (∃ hrs : Int, (dmHandler e).1 = DMResp.coolingPeriod hrs)) :
    (dmHandler e).2.filter DMCall.isMutation = [] := by
  rcases dmHandler_mutation_cases e with hm | hr | hr
  · exact hm
  · rcases h with h | h | h | ⟨hrs, h⟩ <;> rw [h] at hr <;> simp at hr
  · rcases h with h | h | h | ⟨hrs, h⟩ <;> rw [h] at hr <;> simp at hr

/-- C8 witness: the wrong-password rejection leaves an empty mutation
trace. -/
theorem C8_witness :
    (dmHandler { dmEnvOk with passwordOk := false }).2.filter DMCall.isMutation = [] :=
  C8_no_mutation_before_error { dmEnvOk with passwordOk := false }
    (Or.inl (by simp [dmHandler, dmEnvOk]))

/-- C5: when the account (as listed by the identity provider) has a verified
factor, a change-password request whose token AAL claim is not `aal2` never
succeeds and never issues the password-update call, and when the current
password verifies it is answered with the `requiresMFA` error; when the
account has no verified factor, an `aal1` session with the correct current
password succeeds. -/
theorem C5_change_password_aal (e : CPEnv) (fs : List Factor)
    (hf : e.totpFactors = some fs) :
    (fs.any isVerified = true → e.tokenAAL ≠ some "aal2" →
      (∀ b, (cpHandler e).1 ≠ CPResp.success b) ∧
        CPCall.updatePassword ∉ (cpHandler e).2) ∧
    (∀ (em uid cpw npw : String),
      fs.any isVerified = true → e.tokenAAL ≠ some "aal2" →
      e.tokenPresent = true → e.tokenWellFormed = true →
      e.tokenEmail = some em → e.tokenUserId = some uid →
      e.currentPassword = some cpw → e.newPassword = some npw →
      e.passwordOk = true →
      (cpHandler e).1 = CPResp.mfaRequired true) ∧
    (∀ (em uid cpw npw : String),
      fs.any isVerified = false → e.tokenAAL = some "aal1" →
      e.tokenPresent = true → e.tokenWellFormed = true →
      e.tokenEmail = some em → e.tokenUserId = some uid →
      e.currentPassword = some cpw → e.newPassword = some npw →
      e.passwordOk = true → e.updateOk = true →
      (cpHandler e).1 = CPResp.success true) := by
  refine ⟨?_, ?_, ?_⟩
  · intro hv ha
    constructor
    · intro b
      simp only [cpHandler, cpProceed]
      repeat' split
      all_goals simp_all [hf]
    · simp only [cpHandler, cpProceed]
      repeat' split
      all_goals simp_all [hf, CPCall.isMutation]
  · intro em uid cpw npw hv ha g1 g2 g3 g4 g5 g6 g7
    simp [cpHandler, g1, g2, g3, g4, g5, g6, g7, hf, hv, ha]
  · intro em uid cpw npw hv ha g1 g2 g3 g4 g5 g6 g7 g8
    simp [cpHandler, cpProceed, g1, g2, g3, g4, g5, g6, g7, g8, hf, hv]

/-- C5 witness: an AAL1 session of an MFA-enabled account is denied with
`requiresMFA` and no update call; an AAL1 session of a factor-free account
succeeds. -/
theorem C5_witness :
    (cpHandler { cpEnvOk with tokenAAL := some "aal1" }).1 = CPResp.mfaRequired true ∧
    CPCall.updatePassword ∉ (cpHandler { cpEnvOk with tokenAAL := some "aal1" }).2 ∧
    (cpHandler { cpEnvOk with totpFactors := some [], tokenAAL := some "aal1" }).1 =
      CPResp.success true := by
  refine ⟨?_, ?_, ?_⟩
  · exact (C5_change_password_aal { cpEnvOk with tokenAAL := some "aal1" } [totpFactor]
      rfl).2.1 "user@example.com" "user-1" "hunter2" "correct-horse"
      (by simp [totpFactor, isVerified]) (by simp [cpEnvOk]) rfl rfl rfl rfl rfl rfl rfl
  · exact ((C5_change_password_aal { cpEnvOk with tokenAAL := some "aal1" } [totpFactor]
      rfl).1 (by simp [totpFactor, isVerified]) (by simp [cpEnvOk])).2
  · exact (C5_change_password_aal
      { cpEnvOk with totpFactors := some [], tokenAAL := some "aal1" } [] rfl).2.2
      "user@example.com" "user-1" "hunter2" "correct-horse"
      rfl rfl rfl rfl rfl rfl rfl rfl rfl rfl

/-- C6 counterexample: for an AAL1 page load on an account with a verified
factor, guard.js signs the session out and redirects to sign-in, but the
redirect (`index.html`) carries no flag that opens the second-factor prompt,
so the claimed outcome (terminate and redirect with the flag) does not
occur. -/
theorem C6_counterexample :
    guard guardEnvAal1 ≠ GuardOutcome.redirectLogin true true ∧
    guard guardEnvAal1 = GuardOutcome.redirectLogin true false := by
  constructor <;>
    simp [guard, guardEnvAal1, guardSessionAal1, effectiveAAL, guardRecoveryCheck,
      passwordAmr, guardAfterRecovery, totpFactor, isVerified]

/-- C6 (amended): on an AAL1 page load of an MFA-enabled account guard.js
terminates the session and redirects to sign-in without any second-factor
flag and never grants access; the immediate-prompt flag exists only in
`requireAuth`, which redirects to `login.html?mfa_required=1` without
terminating the session. -/
theorem C6_amended_redirect_without_flag :
    (∀ (env : GuardEnv) (s : GSession) (u : GUser),
      env.sessionError = false → env.session = some s →
      guardRecoveryCheck s.amr = false →
      env.userError = false → env.user = some u →
      0 < ((u.factors.getD []).filter isVerified).length →
      effectiveAAL s ≠ some "aal2" →
      guard env = GuardOutcome.redirectLogin true false) ∧
    (∀ (env : RAEnv) (s : GSession),
      env.clientOk = true → env.getSessionError = false →
      env.getSessionResult = some s →
      0 < ((env.totpFactors.getD []).filter isVerified).length →
      s.aal = some "aal1" →
      requireAuth env = RAOutcome.redirectMfaLogin) := by
  constructor
  · intro env s u h1 h2 h3 h4 h5 h6 h7
    rcases heff : effectiveAAL s with _ | a
    · simp [guard, h1, h2, h3, guardAfterRecovery, h4, h5, h6, heff]
    · have ha : a ≠ "aal2" := by
        rintro rfl
        exact h7 heff
      simp [guard, h1, h2, h3, guardAfterRecovery, h4, h5, h6, heff, ha]
  · intro env s h1 h2 h3 h4 h5
    simp [requireAuth, h1, h2, h3, h4, h5]

/-- C6 (amended) witness: the concrete AAL1 page load and `requireAuth`
call. -/
theorem C6_amended_witness :
    guard guardEnvAal1 = GuardOutcome.redirectLogin true false ∧
    requireAuth raEnvAal1 = RAOutcome.redirectMfaLogin := by
  constructor
  · exact C6_amended_redirect_without_flag.1 guardEnvAal1 guardSessionAal1
      { factors := some [totpFactor] } rfl rfl
      (by simp [guardSessionAal1, guardRecoveryCheck, passwordAmr])
      rfl rfl
      (by simp [totpFactor, isVerified])
      (by simp [guardSessionAal1, effectiveAAL])
  · exact C6_amended_redirect_without_flag.2 raEnvAal1 guardSessionAal1
      rfl rfl rfl (by simp [raEnvAal1, totpFactor, isVerified]) rfl

/-- The auth.js recovery classification holds exactly of sessions whose
`amr` list is present and is exactly one `otp` entry. -/
lemma isRecoverySession_iff (s : GSession) :
    isRecoverySession s = true ↔
      ∃ a : AmrEntry, s.amr = some [a] ∧ a.method = "otp" := by
  unfold isRecoverySession
  rcases hamr : s.amr with _ | l
  · simp
  · rcases l with _ | ⟨a, rest⟩
    · simp
    · rcases rest with _ | ⟨b, t⟩
      · simp
      · simp

/-- C7: a session is classified as a recovery session exactly when its
authentication-method list is exactly one `otp` entry, and for every such
session guard.js redirects to the credential-reset page (Step 4, before the
factor lookup and the AAL2 check), whatever the session's claimed AAL and
the account's factors. -/
theorem C7_recovery_redirect :
    (∀ s : GSession, isRecoverySession s = true ↔
      ∃ a : AmrEntry, s.amr = some [a] ∧ a.method = "otp") ∧
    (∀ (env : GuardEnv) (s : GSession),
      env.sessionError = false → env.session = some s →
      isRecoverySession s = true →
      guard env = GuardOutcome.redirectReset) := by
  refine ⟨isRecoverySession_iff, ?_⟩
  intro env s h1 h2 hrec
  obtain ⟨a, ha, hm⟩ := (isRecoverySession_iff s).mp hrec
  simp [guard, h1, h2, guardRecoveryCheck, ha, hm]

/-- C7 witness: the concrete recovery session (which claims AAL2 on an
MFA-enabled account) is classified as recovery and redirected to the reset
page. -/
theorem C7_witness :
    isRecoverySession recoverySession = true ∧
    guard guardEnvRecovery = GuardOutcome.redirectReset := by
  constructor
  · exact (C7_recovery_redirect.1 recoverySession).mpr ⟨otpAmr, rfl, rfl⟩
  · exact C7_recovery_redirect.2 guardEnvRecovery recoverySession rfl rfl
      ((C7_recovery_redirect.1 recoverySession).mpr ⟨otpAmr, rfl, rfl⟩)

end FinanceApp
